import Mathlib

/-!
Shallow embedding of `src/python/astra_astro/image_process.py` (together with
the `TargetType` enum of `src/python/astra_astro/target_classify.py`).

A raster is modelled by the flat list of its pixel values (every claim below
is about the multiset of values, never about the 2-D layout), as exact
rationals where the Python code uses float64; the transcendental parts
(`np.log`, `np.power` with a real exponent) are modelled over `ℝ`.
`np.percentile` is modelled with numpy's default linear-interpolation method.
-/

namespace Astra

/-- `TargetType` enum of `target_classify.py` (lines 15-25). -/
inductive TargetType where
  | emission_nebula
  | reflection_nebula
  | planetary_nebula
  | galaxy
  | globular_cluster
  | open_cluster
  | star_field
  | unknown
deriving DecidableEq, Repr

/-- The `.value` string of each enum member (`target_classify.py` lines 18-25). -/
def TargetType.value : TargetType → String
  | .emission_nebula => "emission_nebula"
  | .reflection_nebula => "reflection_nebula"
  | .planetary_nebula => "planetary_nebula"
  | .galaxy => "galaxy"
  | .globular_cluster => "globular_cluster"
  | .open_cluster => "open_cluster"
  | .star_field => "star_field"
  | .unknown => "unknown"

/-- The `TargetType(string)` enum constructor: `some t` when the string is a
member value, `none` when Python would raise `ValueError`
(used at `image_process.py` lines 624-627). -/
def TargetType.fromString : String → Option TargetType
  | "emission_nebula" => some .emission_nebula
  | "reflection_nebula" => some .reflection_nebula
  | "planetary_nebula" => some .planetary_nebula
  | "galaxy" => some .galaxy
  | "globular_cluster" => some .globular_cluster
  | "open_cluster" => some .open_cluster
  | "star_field" => some .star_field
  | "unknown" => some .unknown
  | _ => none

/-- `ProcessingParams` dataclass (`image_process.py` lines 29-41). -/
structure ProcessingParams where
  target_type : String := "auto"
  stretch_method : String := "statistical"
  stretch_factor : ℚ := 15/100
  background_removal : Bool := true
  star_reduction : Bool := false
  color_calibration : Bool := true
  noise_reduction : ℚ := 0
  contrast : ℚ := 13/10
deriving DecidableEq, Repr

/-- The dictionary produced by `ProcessingParams.to_dict`
(`image_process.py` lines 42-53); a record with the camelCase keys as fields. -/
structure ParamsDict where
  targetType : String
  stretchMethod : String
  stretchFactor : ℚ
  backgroundRemoval : Bool
  starReduction : Bool
  colorCalibration : Bool
  noiseReduction : ℚ
  contrast : ℚ
deriving DecidableEq, Repr

/-- `ProcessingParams.to_dict` (`image_process.py` lines 42-53). -/
def ProcessingParams.to_dict (p : ProcessingParams) : ParamsDict :=
  { targetType := p.target_type
    stretchMethod := p.stretch_method
    stretchFactor := p.stretch_factor
    backgroundRemoval := p.background_removal
    starReduction := p.star_reduction
    colorCalibration := p.color_calibration
    noiseReduction := p.noise_reduction
    contrast := p.contrast }

/-- `ProcessingResult` dataclass (`image_process.py` lines 56-66).
`processing_params` is `none` for the Python default `{}` (empty dict). -/
structure ProcessingResult where
  success : Bool
  output_fits_path : String := ""
  output_preview_path : String := ""
  target_type : String := ""
  processing_params : Option ParamsDict := none
  processing_time : ℚ := 0
  error_message : Option String := none
deriving DecidableEq, Repr

/-- One row of the `TARGET_PARAMS` table. -/
structure TargetDefaults where
  stretch_factor : ℚ
  background_removal : Bool
  star_reduction : Bool
  saturation_boost : ℚ
deriving DecidableEq, Repr

/-- The `TARGET_PARAMS` table (`image_process.py` lines 82-131). -/
def TARGET_PARAMS : TargetType → TargetDefaults
  | .emission_nebula => ⟨18/100, true, true, 12/10⟩
  | .reflection_nebula => ⟨15/100, true, false, 11/10⟩
  | .planetary_nebula => ⟨20/100, true, false, 115/100⟩
  | .galaxy => ⟨12/100, true, false, 1⟩
  | .globular_cluster => ⟨10/100, true, false, 1⟩
  | .open_cluster => ⟨8/100, true, false, 1⟩
  | .star_field => ⟨5/100, false, false, 1⟩
  | .unknown => ⟨15/100, true, false, 1⟩

/-- The stretch-factor merge of `process_image` (`image_process.py`
lines 634-637): the user value wins when strictly positive, otherwise the
target-type table default is used. -/
def resolveStretchFactor (p : ProcessingParams) (t : TargetType) : ℚ :=
  if p.stretch_factor > 0 then p.stretch_factor else (TARGET_PARAMS t).stretch_factor

/-- The star-reduction merge of `process_image` (`image_process.py` line 639):
`params.star_reduction or target_params.get("star_reduction", False)`. -/
def resolveStarReduction (p : ProcessingParams) (t : TargetType) : Bool :=
  p.star_reduction || (TARGET_PARAMS t).star_reduction

/-- The background-removal merge of `process_image` (`image_process.py`
line 638): the user flag is taken verbatim, the table default is ignored. -/
def resolveBackgroundRemoval (p : ProcessingParams) (_t : TargetType) : Bool :=
  p.background_removal

/-- The `offset = factor * 0.01` computed by `_log_stretch`
(`image_process.py` line 295). -/
def logStretchOffset (factor : ℚ) : ℚ := factor * (1/100)

/-! ### numpy primitives on flat value lists -/

/-- `np.clip(l, 0, 1)` element-wise on a value list. -/
def clip01Q (l : List ℚ) : List ℚ := l.map (fun x => min (max x 0) 1)

/-- `np.max` of a (nonempty) value list; `0` on the empty list, where numpy
would raise. -/
def npMax (l : List ℚ) : ℚ := l.foldr max (l.headD 0)

/-- `np.mean` of a value list. -/
def npMean (l : List ℚ) : ℚ := l.sum / l.length

/-- `np.percentile(l, q)` with numpy's default linear-interpolation method:
the virtual index is `(n-1)·q/100`; the result interpolates between the two
adjacent order statistics. `0` on the empty list, where numpy would raise. -/
def npPercentile (l : List ℚ) (q : ℚ) : ℚ :=
  let s := List.insertionSort (· ≤ ·) l
  if s.length = 0 then 0
  else
    let pos : ℚ := ((s.length : ℚ) - 1) * q / 100
    let i : ℤ := ⌊pos⌋
    let lo := s.getD i.toNat 0
    let hi := s.getD (i.toNat + 1) 0
    lo + (pos - (i : ℚ)) * (hi - lo)

/-- `np.median` = 50th percentile (numpy's median coincides with
`np.percentile(l, 50)` under linear interpolation). -/
def npMedian (l : List ℚ) : ℚ := npPercentile l 50

/-! ### Stretch engine and filters (value-list level) -/

/-- `_statistical_stretch` (`image_process.py` lines 181-231).  Percentile
black/white points (0.5th and 99.9th); the degenerate branch for
`white_point <= black_point`; otherwise linear rescale, clip to `[0,1]`,
then a gamma correction `x ** gamma` with
`gamma = np.clip(np.log(target)/np.log(median), 0.2, 2.0)` applied only when
the rescaled median lies strictly inside `(0.001, 0.999)`.  The output lives
in `ℝ` because of `np.log` / `np.power`. -/
noncomputable def statisticalStretch (data : List ℚ) (targetMedian : ℚ) : List ℝ :=
  let blackPoint := npPercentile data (1/2)
  let whitePoint := npPercentile data (999/10)
  if whitePoint ≤ blackPoint then
    (if npMax data ≤ 1 then clip01Q data else data.map (fun x => x / npMax data)).map
      (fun x => (x : ℝ))
  else
    let stretched := clip01Q (data.map (fun x => (x - blackPoint) / (whitePoint - blackPoint)))
    let currentMedian := npMedian stretched
    if 1/1000 < currentMedian ∧ currentMedian < 999/1000 then
      let gamma : ℝ :=
        min (max (Real.log (targetMedian : ℝ) / Real.log (currentMedian : ℝ)) (1/5)) 2
      stretched.map (fun x => (x : ℝ) ^ gamma)
    else
      stretched.map (fun x => (x : ℝ))

/-- `_apply_contrast_curve` (`image_process.py` lines 234-258): identity for
`strength <= 1.0`, otherwise scale around the mean and clip. -/
def applyContrastCurve (data : List ℚ) (strength : ℚ) : List ℚ :=
  if strength ≤ 1 then data
  else
    let mean := npMean data
    clip01Q (data.map (fun x => mean + (x - mean) * strength))

/-- `_arcsinh_stretch` (`image_process.py` lines 261-280): an internal guard
replaces a non-positive factor by the default `0.15` before computing
`arcsinh(x * scale) / arcsinh(scale)` with `scale = 1/factor`, clipped. -/
noncomputable def arcsinhStretch (data : List ℚ) (factor : ℚ) : List ℝ :=
  let factor := if factor ≤ 0 then 15/100 else factor
  let scale : ℝ := 1 / (factor : ℝ)
  data.map (fun x => min (max (Real.arsinh ((x : ℝ) * scale) / Real.arsinh scale) 0) 1)

/-- `_log_stretch` (`image_process.py` lines 283-297): no guard on the factor;
`log1p(x/offset) / log1p(1/offset)` with `offset = factor * 0.01`, clipped. -/
noncomputable def logStretch (data : List ℚ) (factor : ℚ) : List ℝ :=
  let offset := logStretchOffset factor
  data.map (fun x =>
    min (max (Real.log (1 + (x : ℝ) / (offset : ℝ)) / Real.log (1 + 1 / (offset : ℝ))) 0) 1)

/-! ### Orchestrator (`process_image`, `image_process.py` lines 551-739)

The orchestrator is embedded over an abstract record of stage bodies
(`Stages`): each filter / IO call is a function that either returns or fails
with a message, modelling "any unexpected exception inside a stage".  The
`Pipe` monad threads the list of `report_progress` invocations (the `(step,
progress, message)` triples handed to the caller's callback) alongside
`Except`-style failure, so that the progress trace and the error boundary of
the Python function are both visible to theorems. -/

/-- A raster as seen by the orchestrator: its flat value list plus whether
`len(data.shape) == 3` (the only shape fact `process_image` branches on,
line 659). -/
structure Raster where
  values : List ℚ
  is3d : Bool
deriving DecidableEq, Repr

/-- A FITS header, abstracted to an association list. -/
abbrev Header := List (String × String)

/-- The type of the caller's `progress_callback`: it may fail
(raise) on any invocation. -/
abbrev Callback := String → ℚ → String → Except String Unit

/-- One `report_progress` invocation: `(step, progress, message)`. -/
abbrev Event := String × ℚ × String

deriving instance DecidableEq for Except

/-- The stage bodies `process_image` calls, as abstract fallible functions
(any of them may raise; the `try`/`except` boundary of `process_image` is
what is under verification, not the stage internals, which are embedded
separately above). -/
structure Stages where
  makedirs : Except String Unit
  load : Except String (Raster × Header)
  classifyFromName : String → TargetType
  removeBackground : Raster → Except String Raster
  colorCalibrate : Raster → Except String Raster
  statisticalStretchS : ℚ → Raster → Except String Raster
  arcsinhStretchS : ℚ → Raster → Except String Raster
  logStretchS : ℚ → Raster → Except String Raster
  applyContrastCurveS : ℚ → Raster → Except String Raster
  reduceStars : Raster → Except String Raster
  applyNoiseReductionS : ℚ → Raster → Except String Raster
  saveFits : Raster → Header → Except String Unit
  savePreview : Raster → Except String Unit

/-- State-threading of the progress trace over `Except`-failure:
the body of `process_image` runs in this monad. -/
def Pipe (β : Type) : Type := List Event → List Event × Except String β

instance : Monad Pipe where
  pure b := fun tr => (tr, Except.ok b)
  bind x f := fun tr =>
    match x tr with
    | (tr2, Except.ok b) => f b tr2
    | (tr2, Except.error e) => (tr2, Except.error e)

/-- Lift one fallible stage call into the pipeline. -/
def liftE (x : Except String β) : Pipe β := fun tr => (tr, x)

/-- `report_progress` (`image_process.py` lines 584-590): the callback, when
provided, is invoked and any exception it raises is swallowed (logged); the
recorded event is the argument triple, whatever the callback did. -/
def report (cb : Option Callback) (step : String) (prog : ℚ) (msg : String) : Pipe Unit :=
  fun tr =>
    match cb with
    | none => (tr ++ [(step, prog, msg)], Except.ok ())
    | some f =>
      match f step prog msg with
      | Except.ok _ => (tr ++ [(step, prog, msg)], Except.ok ())
      | Except.error _ => (tr ++ [(step, prog, msg)], Except.ok ())

/-- `np.clip(processed, 0, 1)` at `image_process.py` line 709: the final
raster handed to both `_save_fits` and `_save_preview`. -/
def finalClip (r : Raster) : Raster :=
  { values := r.values.map (fun x => min (max x 0) 1), is3d := r.is3d }

/-- Target-type determination of `process_image` (`image_process.py`
lines 616-628, minus the unconditional 0.18 report, emitted by the caller):
auto-classification from the object name when `target_type == "auto"` and a
(non-empty, Python truthiness) name was given; otherwise the user string is
parsed, falling back to `UNKNOWN` on `ValueError`. -/
def classifyStage (st : Stages) (params : ProcessingParams)
    (objectName : Option String) (cb : Option Callback) : Pipe TargetType :=
  if params.target_type = "auto" ∧ (objectName.getD "") ≠ "" then do
    let tt := st.classifyFromName (objectName.getD "")
    report cb "classifying" (20/100) "Classified"
    pure tt
  else if params.target_type ≠ "auto" then do
    let tt := (TargetType.fromString params.target_type).getD TargetType.unknown
    report cb "classifying" (20/100) "Using target type"
    pure tt
  else
    pure TargetType.unknown

/-- Background-removal block of `process_image` (lines 650-656). -/
def backgroundStage (st : Stages) (cb : Option Callback) (enabled : Bool)
    (data : Raster) : Pipe Raster :=
  if enabled then do
    report cb "background" (25/100) "Removing background gradient"
    let r ← liftE (st.removeBackground data)
    report cb "background" (40/100) "Background gradient removed"
    pure r
  else do
    report cb "background" (40/100) "Skipping background removal"
    pure data

/-- Color-calibration block of `process_image` (lines 659-665): runs only for
the calibration flag together with a 3-dimensional raster. -/
def calibrationStage (st : Stages) (cb : Option Callback) (enabled : Bool)
    (data : Raster) : Pipe Raster :=
  if enabled && data.is3d then do
    report cb "calibration" (42/100) "Applying color calibration"
    let r ← liftE (st.colorCalibrate data)
    report cb "calibration" (50/100) "Color calibration complete"
    pure r
  else do
    report cb "calibration" (50/100) "Skipping color calibration"
    pure data

/-- Stretch block of `process_image` (lines 668-680): string dispatch with
fallback to the statistical stretch on an unknown method name. -/
def stretchStage (st : Stages) (cb : Option Callback) (method : String)
    (factor : ℚ) (data : Raster) : Pipe Raster := do
  report cb "stretch" (52/100) "Applying stretch"
  let r ← liftE
    (if method = "statistical" then st.statisticalStretchS factor data
     else if method = "arcsinh" then st.arcsinhStretchS factor data
     else if method = "log" then st.logStretchS factor data
     else st.statisticalStretchS factor data)
  report cb "stretch" (70/100) "Stretch complete"
  pure r

/-- Contrast block of `process_image` (lines 683-687): both the stage and its
two reports (at 0.72 and 0.74) run only when `params.contrast > 1.0`. -/
def contrastStage (st : Stages) (cb : Option Callback) (contrast : ℚ)
    (data : Raster) : Pipe Raster :=
  if contrast > 1 then do
    report cb "contrast" (72/100) "Applying contrast"
    let r ← liftE (st.applyContrastCurveS contrast data)
    report cb "contrast" (74/100) "Contrast adjustment complete"
    pure r
  else
    pure data

/-- Star-reduction block of `process_image` (lines 690-696): its first report
re-uses progress value 0.72. -/
def starsStage (st : Stages) (cb : Option Callback) (enabled : Bool)
    (data : Raster) : Pipe Raster :=
  if enabled then do
    report cb "stars" (72/100) "Reducing star brightness"
    let r ← liftE (st.reduceStars data)
    report cb "stars" (80/100) "Star reduction complete"
    pure r
  else do
    report cb "stars" (80/100) "Skipping star reduction"
    pure data

/-- Noise-reduction block of `process_image` (lines 699-706). -/
def noiseStage (st : Stages) (cb : Option Callback) (strength : ℚ)
    (data : Raster) : Pipe Raster :=
  if strength > 0 then do
    report cb "noise" (82/100) "Applying noise reduction"
    let r ← liftE (st.applyNoiseReductionS strength data)
    report cb "noise" (88/100) "Noise reduction complete"
    pure r
  else do
    report cb "noise" (88/100) "Skipping noise reduction"
    pure data

/-- The body of the `try` block of `process_image` (`image_process.py`
lines 596-731), returning the final (clipped) raster, the resolved target
type and the two output paths.  Stage order, progress values, branch
conditions and parameter merging follow the source line by line (the stage
blocks are the named `…Stage` functions above); progress messages drop their
interpolated numbers. -/
def processImageBody (st : Stages) (params : ProcessingParams)
    (objectName : Option String) (cb : Option Callback)
    (outputDir baseName timestamp : String) :
    Pipe (Raster × TargetType × String × String) := do
  report cb "init" 0 "Initializing processing"
  liftE st.makedirs
  let outputFitsPath := outputDir ++ "/" ++ baseName ++ "_processed_" ++ timestamp ++ ".fits"
  let outputPreviewPath := outputDir ++ "/" ++ baseName ++ "_preview_" ++ timestamp ++ ".png"
  report cb "loading" (5/100) "Loading FITS file"
  let dh ← liftE st.load
  report cb "loading" (15/100) "Loaded image"
  report cb "classifying" (18/100) "Classifying target type"
  let targetType ← classifyStage st params objectName cb
  let p1 ← backgroundStage st cb (resolveBackgroundRemoval params targetType) dh.1
  let p2 ← calibrationStage st cb params.color_calibration p1
  let p3 ← stretchStage st cb params.stretch_method (resolveStretchFactor params targetType) p2
  let p4 ← contrastStage st cb params.contrast p3
  let p5 ← starsStage st cb (resolveStarReduction params targetType) p4
  let p6 ← noiseStage st cb params.noise_reduction p5
  let finalData := finalClip p6
  report cb "saving" (90/100) "Saving processed FITS"
  liftE (st.saveFits finalData dh.2)
  report cb "saving" (95/100) "Generating preview image"
  liftE (st.savePreview finalData)
  report cb "complete" 1 "Processing complete"
  pure (finalData, targetType, outputFitsPath, outputPreviewPath)

/-- `process_image` (`image_process.py` lines 551-739): default parameters for
`params=None` (lines 593-594), the `try` body, and the `except` boundary that
turns any stage failure into a failure `ProcessingResult` (lines 733-739).
`elapsed` stands for `time.time() - start_time`.  Returns the result record
together with the progress trace. -/
def processImage (st : Stages) (params? : Option ProcessingParams)
    (objectName : Option String) (cb : Option Callback)
    (outputDir baseName timestamp : String) (elapsed : ℚ) :
    ProcessingResult × List Event :=
  let params := params?.getD {}
  match processImageBody st params objectName cb outputDir baseName timestamp [] with
  | (tr, Except.ok (_, tt, fitsPath, previewPath)) =>
    ({ success := true
       output_fits_path := fitsPath
       output_preview_path := previewPath
       target_type := tt.value
       processing_params := some params.to_dict
       processing_time := elapsed }, tr)
  | (tr, Except.error e) =>
    ({ success := false
       processing_time := elapsed
       error_message := some e }, tr)

/-- Source lines 212-213 of `_statistical_stretch`: the percentile rescale
`(x - black) / (white - black)` followed by `np.clip(•, 0, 1)`. -/
def percentileRescaled (data : List ℚ) : List ℚ :=
  clip01Q (data.map (fun x =>
    (x - npPercentile data (1/2)) / (npPercentile data (999/10) - npPercentile data (1/2))))

/-! ### Concrete instantiations used by closed theorems -/

/-- A stage record on which every stage body succeeds (filters act as the
identity on the raster); used to evaluate the orchestrator on concrete runs. -/
def stagesOk : Stages :=
  { makedirs := Except.ok ()
    load := Except.ok (⟨[3/2, -1/2], false⟩, [])
    classifyFromName := fun _ => TargetType.galaxy
    removeBackground := fun r => Except.ok r
    colorCalibrate := fun r => Except.ok r
    statisticalStretchS := fun _ r => Except.ok r
    arcsinhStretchS := fun _ r => Except.ok r
    logStretchS := fun _ r => Except.ok r
    applyContrastCurveS := fun _ r => Except.ok r
    reduceStars := fun r => Except.ok r
    applyNoiseReductionS := fun _ r => Except.ok r
    saveFits := fun _ _ => Except.ok ()
    savePreview := fun _ => Except.ok () }

/-- Default parameters except that the user forces star reduction on
(together with the default `contrast = 1.3 > 1.0` this makes both the
contrast stage and the star-reduction stage run). -/
def paramsStarForced : ProcessingParams := { star_reduction := true }

/-- User parameters with the stretch-factor sentinel `0` and star reduction
off, on a target type (`emission_nebula`) whose table default forces star
reduction on and has stretch-factor default `0.18`. -/
def paramsSentinel : ProcessingParams :=
  { target_type := "emission_nebula", stretch_factor := 0, star_reduction := false }

/-- The progress trace of a successful default-parameter run of the
orchestrator over `stagesOk` (the value of
`(processImageBody stagesOk {} none none "out" "img" "T" []).1`). -/
def traceDefaultRun : List Event :=
  [("init", 0, "Initializing processing"),
   ("loading", 1/20, "Loading FITS file"),
   ("loading", 3/20, "Loaded image"),
   ("classifying", 9/50, "Classifying target type"),
   ("background", 1/4, "Removing background gradient"),
   ("background", 2/5, "Background gradient removed"),
   ("calibration", 1/2, "Skipping color calibration"),
   ("stretch", 13/25, "Applying stretch"),
   ("stretch", 7/10, "Stretch complete"),
   ("contrast", 18/25, "Applying contrast"),
   ("contrast", 37/50, "Contrast adjustment complete"),
   ("stars", 4/5, "Skipping star reduction"),
   ("noise", 22/25, "Skipping noise reduction"),
   ("saving", 9/10, "Saving processed FITS"),
   ("saving", 19/20, "Generating preview image"),
   ("complete", 1, "Processing complete")]

/-- Boolean check that a list of progress values is monotonically
non-decreasing. -/
def nondecreasing : List ℚ → Bool
  | [] => true
  | [_] => true
  | a :: b :: rest => decide (a ≤ b) && nondecreasing (b :: rest)

/-! ### Proof machinery for the orchestrator -/

/-- `P` holds of every value a pipeline fragment can successfully return. -/
def PipeOk (m : Pipe β) (P : β → Prop) : Prop :=
  ∀ tr tr' b, m tr = (tr', Except.ok b) → P b

theorem pipeOk_bind {β γ : Type} {x : Pipe β} {f : β → Pipe γ} {P : γ → Prop}
    (h : ∀ b, PipeOk (f b) P) : PipeOk (x >>= f) P := by
  intro tr tr' c hc
  have hbind : (x >>= f) tr =
      match x tr with
      | (tr2, Except.ok b) => f b tr2
      | (tr2, Except.error e) => (tr2, Except.error e) := rfl
  rw [hbind] at hc
  rcases hx : x tr with ⟨tr2, r⟩
  rw [hx] at hc
  cases r with
  | ok b => exact h b tr2 tr' c hc
  | error e => simp at hc

theorem pipeOk_pure {β : Type} {b : β} {P : β → Prop} (h : P b) :
    PipeOk (pure b : Pipe β) P := by
  intro tr tr' c hc
  have : (tr, Except.ok b) = (tr', Except.ok c) := hc
  injection this with h1 h2
  injection h2 with h3
  exact h3 ▸ h

/-- `report` appends the event and succeeds, whatever the callback does with
its arguments (the orchestrator swallows callback exceptions). -/
theorem report_apply (cb : Option Callback) (step : String) (prog : ℚ) (msg : String) :
    report cb step prog msg = fun tr => (tr ++ [(step, prog, msg)], Except.ok ()) := by
  funext tr
  cases cb with
  | none => rfl
  | some f =>
    show (match f step prog msg with
      | Except.ok _ => (tr ++ [(step, prog, msg)], Except.ok ())
      | Except.error _ => (tr ++ [(step, prog, msg)], Except.ok ())) =
        (tr ++ [(step, prog, msg)], Except.ok ())
    cases f step prog msg <;> rfl

/-- Every raster a successful orchestrator body can return (the raster handed
to both `_save_fits` and `_save_preview`) has all values in `[0, 1]`: the
final `np.clip(processed, 0, 1)` of line 709 guarantees it for every behaviour
of the stage bodies. -/
theorem processImageBody_ok_clipped (st : Stages) (params : ProcessingParams)
    (objectName : Option String) (cb : Option Callback) (odir bname ts : String) :
    PipeOk (processImageBody st params objectName cb odir bname ts)
      (fun payload => ∀ x ∈ payload.1.values, 0 ≤ x ∧ x ≤ 1) := by
  unfold processImageBody
  apply pipeOk_bind; intro _
  apply pipeOk_bind; intro _
  apply pipeOk_bind; intro _
  apply pipeOk_bind; intro dh
  apply pipeOk_bind; intro _
  apply pipeOk_bind; intro _
  apply pipeOk_bind; intro targetType
  apply pipeOk_bind; intro p1
  apply pipeOk_bind; intro p2
  apply pipeOk_bind; intro p3
  apply pipeOk_bind; intro p4
  apply pipeOk_bind; intro p5
  apply pipeOk_bind; intro p6
  apply pipeOk_bind; intro _
  apply pipeOk_bind; intro _
  apply pipeOk_bind; intro _
  apply pipeOk_bind; intro _
  apply pipeOk_bind; intro _
  apply pipeOk_pure
  intro x hx
  have hx' : x ∈ p6.values.map (fun y => min (max y 0) 1) := hx
  obtain ⟨y, -, rfl⟩ := List.mem_map.mp hx'
  exact ⟨le_min (le_max_right y 0) zero_le_one, min_le_right _ 1⟩

/-- C1.  For every behaviour of the stage bodies and every parameter set, the
raster the pipeline writes out at completion (the one payload handed to both
`_save_fits` and `_save_preview` after the final `np.clip` of
`image_process.py` line 709) has all of its values in `[0, 1]` inclusive. -/
theorem final_raster_in_unit_interval (st : Stages) (params : ProcessingParams)
    (objectName : Option String) (cb : Option Callback) (odir bname ts : String)
    (tr : List Event) (r : Raster) (tt : TargetType) (fp pp : String)
    (h : processImageBody st params objectName cb odir bname ts [] =
      (tr, Except.ok (r, tt, fp, pp))) :
    ∀ x ∈ r.values, 0 ≤ x ∧ x ≤ 1 :=
  processImageBody_ok_clipped st params objectName cb odir bname ts [] tr (r, tt, fp, pp) h

section ClaimEvaluation

attribute [local semireducible] Rat.inv Rat.mul Rat.add Rat.sub Rat.ofScientific

/-- Witness for C1: a concrete successful default-parameter run over
`stagesOk` (input values `[3/2, -1/2]`, written out as `[1, 0]`), evaluated
at the written-out pixel value `1`. -/
theorem final_raster_in_unit_interval_witness :
    0 ≤ (1 : ℚ) ∧ (1 : ℚ) ≤ 1 :=
  final_raster_in_unit_interval stagesOk {} none none "out" "img" "T"
    traceDefaultRun ⟨[1, 0], false⟩ TargetType.unknown
    "out/img_processed_T.fits" "out/img_preview_T.png" (by decide) 1 (by decide)

/-- C2.  Failing run for the progress-monotonicity claim: with the default
`contrast = 1.3 > 1.0` and star reduction forced on, a fully successful run
reports 0.74 ("contrast" complete) and then 0.72 ("stars" start), so the
progress sequence is NOT non-decreasing (its final value is still exactly
1.0). -/
theorem progress_trace_dips_after_contrast :
    (processImage stagesOk (some paramsStarForced) none none "out" "img" "T" 1).1.success
      = true ∧
    nondecreasing
      (((processImage stagesOk (some paramsStarForced) none none "out" "img" "T" 1).2).map
        (fun e => e.2.1)) = false ∧
    (((processImage stagesOk (some paramsStarForced) none none "out" "img" "T" 1).2).map
      (fun e => e.2.1)).getLast? = some 1 := by decide

/-- C3, counterexample.  A successful run on user parameters with the
stretch-factor sentinel `0` and star reduction off, on target type
`emission_nebula` (table default: stretch factor 0.18, star reduction on):
the echoed parameter record is the user's `to_dict` verbatim — the sentinel
is not replaced (echoed 0 vs effective 0.18) and the forced-on star-reduction
flag is echoed as off. -/
theorem echoed_params_keep_sentinels :
    (processImage stagesOk (some paramsSentinel) none none "out" "img" "T" 1).1.success
      = true ∧
    (processImage stagesOk (some paramsSentinel) none none "out" "img" "T" 1).1.processing_params
      = some paramsSentinel.to_dict ∧
    paramsSentinel.to_dict.stretchFactor = 0 ∧
    resolveStretchFactor paramsSentinel TargetType.emission_nebula = 18/100 ∧
    paramsSentinel.to_dict.starReduction = false ∧
    resolveStarReduction paramsSentinel TargetType.emission_nebula = true := by decide

/-- C3, amended.  The `ProcessingResult` of a successful run echoes the
user-supplied `ProcessingParams` verbatim via `to_dict` (line 729): the
stretch-factor sentinel and the star-reduction flag are NOT replaced by the
resolved effective values, which are used internally only. -/
theorem success_result_echoes_user_params (st : Stages) (params? : Option ProcessingParams)
    (objectName : Option String) (cb : Option Callback) (odir bname ts : String) (elapsed : ℚ)
    (h : (processImage st params? objectName cb odir bname ts elapsed).1.success = true) :
    (processImage st params? objectName cb odir bname ts elapsed).1.processing_params
      = some ((params?.getD {}).to_dict) := by
  rcases hb : processImageBody st (params?.getD {}) objectName cb odir bname ts [] with ⟨tr, res⟩
  simp only [processImage] at h ⊢
  rw [hb] at h ⊢
  cases res with
  | ok payload => rfl
  | error e => simp at h

/-- Witness for the amended C3: a concrete successful run with default
parameters (`params? = none`). -/
theorem success_result_echoes_user_params_witness :
    (processImage stagesOk none none none "out" "img" "T" 1).1.success = true ∧
    (processImage stagesOk none none none "out" "img" "T" 1).1.processing_params
      = some (((none : Option ProcessingParams)).getD {}).to_dict :=
  ⟨by decide,
    success_result_echoes_user_params stagesOk none none none "out" "img" "T" 1 (by decide)⟩

/-- C4.  Parameter resolution: the effective stretch factor is the user's
value iff it is strictly positive and the target-table default otherwise; the
effective star reduction is the logical OR of the user flag and the table
default; the effective background removal is the user flag unconditionally.
In particular the galaxy table default is 0.12, a user value 0.22 wins for
every target type, and the sentinel 0 selects the table default for every
target type. -/
theorem parameter_resolution_rule :
    (∀ (p : ProcessingParams) (t : TargetType),
      resolveStretchFactor p t =
        (if p.stretch_factor > 0 then p.stretch_factor
         else (TARGET_PARAMS t).stretch_factor) ∧
      resolveStarReduction p t = (p.star_reduction || (TARGET_PARAMS t).star_reduction) ∧
      resolveBackgroundRemoval p t = p.background_removal) ∧
    (TARGET_PARAMS TargetType.galaxy).stretch_factor = 12/100 ∧
    (∀ t, resolveStretchFactor { stretch_factor := 22/100 } t = 22/100) ∧
    (∀ t, resolveStretchFactor { stretch_factor := 0 } t = (TARGET_PARAMS t).stretch_factor) := by
  refine ⟨fun p t => ⟨rfl, rfl, rfl⟩, rfl, fun t => ?_, fun t => ?_⟩
  · unfold resolveStretchFactor
    rw [if_pos (by decide)]
  · unfold resolveStretchFactor
    rw [if_neg (by decide)]

/-- C5.  Degenerate branch of the statistical stretch: when the 99.9th
percentile white point is not above the 0.5th percentile black point, the
raster is returned clipped to `[0,1]` if its maximum is at most 1, and
divided by its maximum otherwise — no rescaling, no gamma. -/
theorem statistical_stretch_flat_branch (data : List ℚ) (t : ℚ) (_hne : data ≠ [])
    (h : npPercentile data (999/10) ≤ npPercentile data (1/2)) :
    statisticalStretch data t =
      (if npMax data ≤ 1 then clip01Q data
       else data.map (fun x => x / npMax data)).map (fun x => (x : ℝ)) := by
  simp only [statisticalStretch]
  rw [if_pos h]

/-- Witness for C5: the constant raster `[2, 2]` (maximum 2 > 1, so the
division branch is selected). -/
theorem statistical_stretch_flat_branch_witness :
    ([2, 2] : List ℚ) ≠ [] ∧
    npPercentile [2, 2] (999/10) ≤ npPercentile [2, 2] (1/2) ∧
    statisticalStretch [2, 2] (15/100) =
      (if npMax [2, 2] ≤ 1 then clip01Q [2, 2]
       else ([2, 2] : List ℚ).map (fun x => x / npMax [2, 2])).map (fun x => (x : ℝ)) :=
  ⟨by decide, by decide,
    statistical_stretch_flat_branch [2, 2] (15/100) (by decide) (by decide)⟩

/-- C6.  Non-degenerate statistical stretch: after the percentile rescale and
clip, if the median of the rescaled raster lies strictly inside
`(0.001, 0.999)` the result raises the rescaled raster element-wise to
`gamma = clamp(ln(target)/ln(median), 0.2, 2.0)`; otherwise the gamma step is
skipped and the clipped rescaled raster is returned unchanged. -/
theorem statistical_stretch_gamma_rule (data : List ℚ) (t : ℚ) (_hne : data ≠ [])
    (h : npPercentile data (1/2) < npPercentile data (999/10)) :
    ((1/1000 < npMedian (percentileRescaled data) ∧
        npMedian (percentileRescaled data) < 999/1000) →
      statisticalStretch data t = (percentileRescaled data).map (fun x => (x : ℝ) ^
        (min (max (Real.log (t : ℝ) / Real.log (npMedian (percentileRescaled data) : ℝ))
          (1/5)) 2))) ∧
    (¬ (1/1000 < npMedian (percentileRescaled data) ∧
        npMedian (percentileRescaled data) < 999/1000) →
      statisticalStretch data t = (percentileRescaled data).map (fun x => (x : ℝ))) := by
  have hn : ¬ (npPercentile data (999/10) ≤ npPercentile data (1/2)) := not_le.mpr h
  constructor
  · intro hm
    simp only [statisticalStretch, percentileRescaled] at hm ⊢
    rw [if_neg hn, if_pos hm]
  · intro hm
    simp only [statisticalStretch, percentileRescaled] at hm ⊢
    rw [if_neg hn, if_neg hm]

/-- Witness for C6: `[0, 1, 2, 3]` — black point 3/200, white point 2997/1000,
rescaled median 495/994 strictly inside `(0.001, 0.999)`, so the gamma branch
applies. -/
theorem statistical_stretch_gamma_rule_witness :
    ([0, 1, 2, 3] : List ℚ) ≠ [] ∧
    npPercentile [0, 1, 2, 3] (1/2) < npPercentile [0, 1, 2, 3] (999/10) ∧
    (1/1000 < npMedian (percentileRescaled [0, 1, 2, 3]) ∧
      npMedian (percentileRescaled [0, 1, 2, 3]) < 999/1000) ∧
    statisticalStretch [0, 1, 2, 3] (15/100) =
      (percentileRescaled [0, 1, 2, 3]).map (fun x => (x : ℝ) ^
        (min (max (Real.log ((15/100 : ℚ) : ℝ) /
          Real.log (npMedian (percentileRescaled [0, 1, 2, 3]) : ℝ)) (1/5)) 2)) :=
  ⟨by decide, by decide, by decide,
    (statistical_stretch_gamma_rule [0, 1, 2, 3] (15/100) (by decide) (by decide)).1 (by decide)⟩

/-- C7.  `process_image` never raises past its boundary: for every behaviour
of the stage bodies it returns a `ProcessingResult`, and on any failure that
result has `success = false`, a non-null error message, the elapsed time
recorded, and both output-path fields left empty. -/
theorem process_image_error_boundary (st : Stages) (params? : Option ProcessingParams)
    (objectName : Option String) (cb : Option Callback) (odir bname ts : String) (elapsed : ℚ) :
    ((processImage st params? objectName cb odir bname ts elapsed).1.success = true ∧
      (processImage st params? objectName cb odir bname ts elapsed).1.error_message = none) ∨
    ((processImage st params? objectName cb odir bname ts elapsed).1.success = false ∧
      (processImage st params? objectName cb odir bname ts elapsed).1.error_message ≠ none ∧
      (processImage st params? objectName cb odir bname ts elapsed).1.output_fits_path = "" ∧
      (processImage st params? objectName cb odir bname ts elapsed).1.output_preview_path = "" ∧
      (processImage st params? objectName cb odir bname ts elapsed).1.processing_time
        = elapsed) := by
  rcases hb : processImageBody st (params?.getD {}) objectName cb odir bname ts [] with ⟨tr, res⟩
  simp only [processImage]
  rw [hb]
  cases res with
  | ok payload => exact Or.inl ⟨rfl, rfl⟩
  | error e => exact Or.inr ⟨rfl, by simp, rfl, rfl, rfl⟩

/-- C8.  A progress callback that fails — on every invocation or any subset —
changes nothing: the run (result record and progress trace alike) is
identical to a run with any other callback or with none. -/
theorem callback_failures_ignored (st : Stages) (params? : Option ProcessingParams)
    (objectName : Option String) (odir bname ts : String) (elapsed : ℚ)
    (f : Callback) (cb2 : Option Callback) :
    processImage st params? objectName (some f) odir bname ts elapsed =
      processImage st params? objectName cb2 odir bname ts elapsed := by
  unfold processImage processImageBody classifyStage backgroundStage calibrationStage
    stretchStage contrastStage starsStage noiseStage
  simp only [report_apply]

/-- C9.  The contrast enhancer is the identity — bit-identical input — for
every strength at most 1.0 (`image_process.py` lines 248-249). -/
theorem contrast_noop_for_low_strength (data : List ℚ) (strength : ℚ)
    (h : strength ≤ 1) :
    applyContrastCurve data strength = data := by
  unfold applyContrastCurve
  rw [if_pos h]

/-- Witness for C9: strength exactly 1.0. -/
theorem contrast_noop_for_low_strength_witness :
    ((1 : ℚ) ≤ 1) ∧ applyContrastCurve [1/2, 3/4] 1 = [1/2, 3/4] :=
  ⟨by decide, contrast_noop_for_low_strength [1/2, 3/4] 1 (by decide)⟩

/-- C10.  For every user parameter set (including a zero or negative stretch
factor) and every target type, the resolved stretch factor handed to the
stretch stage is strictly positive (every table default is positive), hence
the logarithmic stretch's `offset = factor * 0.01` is strictly positive and
its divisor `log1p(1/offset)` is nonzero — its divisions are well-defined in
every pipeline run even though `_log_stretch`, unlike `_arcsinh_stretch`, has
no internal guard. -/
theorem resolved_stretch_factor_positive (p : ProcessingParams) (t : TargetType) :
    0 < resolveStretchFactor p t ∧
    0 < logStretchOffset (resolveStretchFactor p t) ∧
    Real.log (1 + 1 / (logStretchOffset (resolveStretchFactor p t) : ℝ)) ≠ 0 := by
  have h : 0 < resolveStretchFactor p t := by
    unfold resolveStretchFactor
    split
    · assumption
    · cases t <;> decide
  have hoff : 0 < logStretchOffset (resolveStretchFactor p t) := by
    unfold logStretchOffset
    exact mul_pos h (by norm_num)
  have hoffR : (0 : ℝ) < (logStretchOffset (resolveStretchFactor p t) : ℝ) := by
    exact_mod_cast hoff
  have h1 : (1 : ℝ) < 1 + 1 / (logStretchOffset (resolveStretchFactor p t) : ℝ) := by
    have := one_div_pos.mpr hoffR
    linarith
  exact ⟨h, hoff, ne_of_gt (Real.log_pos h1)⟩

end ClaimEvaluation

end Astra
